import Mathlib

/-!
Verification of `lifetimes/estimation.py` and `lifetimes/validation.py`.

Shallow embedding: Python floats are modelled by `ℝ` (field operations total,
as usual in Lean), integer-valued data of the discrete-time models by `ℕ`,
datasets by lists of row structures, the `np.inf` infeasibility signal by
`(⊤ : EReal)`, and explicit Python `raise` statements by `Except PyErr`.
External scipy special functions are modelled by their mathematical
definitions (`Real.Gamma`, the Euler beta combination, the Gauss
hypergeometric power series, the digamma function as the derivative of
`log ∘ Γ`).
-/

open scoped Classical

noncomputable section

/-- scipy.special.beta, via `B(x, y) = Γ(x)Γ(y)/Γ(x+y)`. The source binds
`B = special.beta` at module level. -/
def B (x y : ℝ) : ℝ := Real.Gamma x * Real.Gamma y / Real.Gamma (x + y)

/-- scipy.special.gammaln (on the positive arguments used here, `log Γ`). -/
def gammaln (x : ℝ) : ℝ := Real.log (Real.Gamma x)

/-- Rising factorial `x (x+1) ⋯ (x+n-1)`, the Pochhammer symbol of the
hypergeometric series. -/
def risingFact (x : ℝ) : ℕ → ℝ
  | 0 => 1
  | n + 1 => risingFact x n * (x + n)

/-- scipy.special.hyp2f1: the Gauss hypergeometric function, modelled by its
defining power series. -/
def hyp2f1 (a b c x : ℝ) : ℝ :=
  tsum (fun n : ℕ =>
    (risingFact a n * risingFact b n / risingFact c n) * x ^ n / (n.factorial : ℝ))

/-- scipy.special.psi (digamma), modelled as the derivative of `log ∘ Γ`. -/
def psi (x : ℝ) : ℝ := deriv (fun y => Real.log (Real.Gamma y)) x

/-- Modelled from the spec: `gamma_ratio` from `lifetimes.formulas` is imported
by `estimation.py` but its module is not under `src/`. It is the ratio
`Γ(x + eps) / Γ(x)`, the unique reading under which the BG/BB expected-value
formula of §4.3 satisfies `E(0) = 0` as the spec requires. -/
def gamma_ratio (x eps : ℝ) : ℝ := Real.Gamma (x + eps) / Real.Gamma x

/-- Modelled from the spec: `ncr` from `lifetimes.utils` is imported by
`estimation.py` but its module is not under `src/`; it is the binomial
coefficient `n` choose `r`. -/
def ncr (n r : ℕ) : ℝ := (n.choose r : ℝ)

/-! ## Errors raised explicitly by the Python code (or by the runtime) -/

/-- The Python exceptions relevant to the embedded code paths. -/
inductive PyErr where
  /-- `ValueError("Model has not been fit yet. Please call the .fit method first.")` -/
  | valueErrorNotFit : PyErr
  /-- `ValueError("Covariance matrix: wrong dimensions. ...")` -/
  | valueErrorWrongDims : PyErr
  /-- `TypeError` from subscripting `None` (`self.params_[x]` with `params_ = None`). -/
  | typeErrorNoneNotSubscriptable : PyErr
  /-- `KeyError` from a missing dictionary key. -/
  | keyError : PyErr
deriving DecidableEq

/-! ## GammaGammaFitter._negative_log_likelihood (estimation.py lines 50-68) -/

/-- One row of the Gamma-Gamma data: frequency `x` and average monetary value `m`. -/
structure GGRow where
  x : ℝ
  m : ℝ

/-- One row's log-likelihood contribution (the `negative_log_likelihood_values`
expression of line 60). -/
def gammaGammaRowLL (p q v : ℝ) (row : GGRow) : ℝ :=
  gammaln (p * row.x + q) - gammaln (p * row.x) - gammaln q
    + q * Real.log v + (p * row.x - 1) * Real.log row.m + (p * row.x) * Real.log row.x
    - (p * row.x + q) * Real.log (row.x * row.m + v)

/-- The objective computed past the feasibility guard: `-sum(values) + penalizer`. -/
def gammaGammaBody (p q v : ℝ) (data : List GGRow) (pen : ℝ) : ℝ :=
  -(data.map (gammaGammaRowLL p q v)).sum + pen * (Real.log p + Real.log q + Real.log v)

/-- `GammaGammaFitter._negative_log_likelihood`. The guard is
`any(i < 0 for i in params)` — strictly negative, unlike the other families. -/
def gammaGammaNegLogLik (p q v : ℝ) (data : List GGRow) (pen : ℝ) : EReal :=
  if p < 0 ∨ q < 0 ∨ v < 0 then ⊤ else ((gammaGammaBody p q v data pen : ℝ) : EReal)

/-! ## ParetoNBDFitter._negative_log_likelihood (lines 179-219) -/

/-- One row of continuous-time data: frequency `x`, recency `tx`, age `T`. -/
structure PRow where
  x : ℝ
  tx : ℝ
  T : ℝ

/-- `ParetoNBDFitter._log_A_0` (lines 179-200). `misc.logsumexp` with signs
`[1, -1]` is `log(exp a₁ - exp a₂)`. -/
def logA0 (r alpha s beta x tx T : ℝ) : ℝ :=
  let mm := if alpha < beta then (alpha, beta, r + x) else (beta, alpha, s + 1)
  let maxab := mm.2.1
  let t := mm.2.2
  let absab := maxab - mm.1
  let rsf := r + s + x
  let p1 := hyp2f1 rsf t (rsf + 1) (absab / (maxab + tx))
  let q1 := maxab + tx
  let p2 := hyp2f1 rsf t (rsf + 1) (absab / (maxab + T))
  let q2 := maxab + T
  Real.log (Real.exp (Real.log p1 + rsf * Real.log q2)
      - Real.exp (Real.log p2 + rsf * Real.log q1))
    - rsf * Real.log (q1 * q2)

/-- One row's `A_1 + A_2` of the Pareto/NBD likelihood; `logaddexp x y` is
`log(exp x + exp y)`. -/
def paretoRowLL (r alpha s beta : ℝ) (row : PRow) : ℝ :=
  let x := row.x
  let A1 := gammaln (r + x) - gammaln r + r * Real.log alpha + s * Real.log beta
  let A2 := Real.log
    (Real.exp (-(r + x) * Real.log (alpha + row.T) - s * Real.log (beta + row.T))
      + Real.exp (Real.log s + logA0 r alpha s beta x row.tx row.T - Real.log (r + s + x)))
  A1 + A2

/-- The Pareto/NBD objective past the guard. -/
def paretoBody (r alpha s beta : ℝ) (data : List PRow) (pen : ℝ) : ℝ :=
  -(data.map (paretoRowLL r alpha s beta)).sum
    + pen * (Real.log r + Real.log alpha + Real.log s + Real.log beta)

/-- `ParetoNBDFitter._negative_log_likelihood`; guard `npany(params <= 0)`. -/
def paretoNegLogLik (r alpha s beta : ℝ) (data : List PRow) (pen : ℝ) : EReal :=
  if r ≤ 0 ∨ alpha ≤ 0 ∨ s ≤ 0 ∨ beta ≤ 0 then ⊤
  else ((paretoBody r alpha s beta data pen : ℝ) : EReal)

/-! ## BetaGeoFitter._negative_log_likelihood (lines 399-414) -/

/-- One row's contribution `A_1 + A_2 + logsumexp([A_3, A_4], b=[1, x>0])`.
The float code zeroes NaN/Inf entries of `A_4`; those arise only on rows
whose indicator `(x > 0)` is 0, so the masking has no counterpart in `ℝ`. -/
def betaGeoRowLL (r alpha a b : ℝ) (row : PRow) : ℝ :=
  let x := row.x
  let A1 := gammaln (r + x) - gammaln r + r * Real.log alpha
  let A2 := gammaln (a + b) + gammaln (b + x) - gammaln b - gammaln (a + b + x)
  let A3 := -(r + x) * Real.log (alpha + row.T)
  let A4 := Real.log a - Real.log (b + x - 1) - (r + x) * Real.log (row.tx + alpha)
  A1 + A2 + Real.log (Real.exp A3 + (if 0 < x then (1 : ℝ) else 0) * Real.exp A4)

/-- The BG/NBD objective past the guard. -/
def betaGeoBody (r alpha a b : ℝ) (data : List PRow) (pen : ℝ) : ℝ :=
  -(data.map (betaGeoRowLL r alpha a b)).sum
    + pen * (Real.log r + Real.log alpha + Real.log a + Real.log b)

/-- `BetaGeoFitter._negative_log_likelihood`; guard `npany(params <= 0)`. -/
def betaGeoNegLogLik (r alpha a b : ℝ) (data : List PRow) (pen : ℝ) : EReal :=
  if r ≤ 0 ∨ alpha ≤ 0 ∨ a ≤ 0 ∨ b ≤ 0 then ⊤
  else ((betaGeoBody r alpha a b data pen : ℝ) : EReal)

/-! ## ModifiedBetaGeoFitter._negative_log_likelihood (lines 558-572) -/

/-- One row's `A_1 + A_2 + A_3 + log(exp A_4 + 1)` of the MBG/NBD likelihood. -/
def mbgRowLL (r alpha a b : ℝ) (row : PRow) : ℝ :=
  let x := row.x
  let A1 := gammaln (r + x) - gammaln r + r * Real.log alpha
  let A2 := gammaln (a + b) + gammaln (b + x + 1) - gammaln b - gammaln (a + b + x + 1)
  let A3 := -(r + x) * Real.log (alpha + row.T)
  let A4 := Real.log a - Real.log (b + x)
    + (r + x) * (Real.log (alpha + row.T) - Real.log (alpha + row.tx))
  A1 + A2 + A3 + Real.log (Real.exp A4 + 1)

/-- The MBG/NBD objective past the guard. -/
def mbgBody (r alpha a b : ℝ) (data : List PRow) (pen : ℝ) : ℝ :=
  -(data.map (mbgRowLL r alpha a b)).sum
    + pen * (Real.log r + Real.log alpha + Real.log a + Real.log b)

/-- `ModifiedBetaGeoFitter._negative_log_likelihood`; guard `npany(params <= 0)`. -/
def mbgNegLogLik (r alpha a b : ℝ) (data : List PRow) (pen : ℝ) : EReal :=
  if r ≤ 0 ∨ alpha ≤ 0 ∨ a ≤ 0 ∨ b ≤ 0 then ⊤
  else ((mbgBody r alpha a b data pen : ℝ) : EReal)

/-! ## BGBBFitter._negative_log_likelihood (lines 666-725, non-jac path) -/

/-- One row of discrete-time data: frequency `x`, recency `tx`, age `T`
(integers in the discrete-time models). -/
structure DRow where
  x : ℕ
  tx : ℕ
  T : ℕ

/-- The per-row numerator of the BG/BB likelihood: the closed term plus the
finite sum over the `T - tx` steps between recency and age
(`np.arange((T - tx - 1) + 1)`). -/
def bgbbRowL (a b g d : ℝ) (row : DRow) : ℝ :=
  B (a + row.x) (b + row.T - row.x) * B g (d + row.T)
    + ∑ i ∈ Finset.range (row.T - row.tx),
        B (a + row.x) (b + row.tx - row.x + i) * B (g + 1) (d + row.tx + i)

/-- One row's log-likelihood `log(numerator / (B(a,b) B(g,d)))`. -/
def bgbbLLj (a b g d : ℝ) (row : DRow) : ℝ :=
  Real.log (bgbbRowL a b g d row / (B a b * B g d))

/-- The BG/BB objective past the guard: the weighted (`N` present) or plain
row sum, plus the penalizer. -/
def bgbbBody (a b g d : ℝ) (data : List DRow) (pen : ℝ) (N : Option (List ℕ)) : ℝ :=
  (match N with
    | some w => -((data.zip w).map (fun rn => bgbbLLj a b g d rn.1 * (rn.2 : ℝ))).sum
    | none => -(data.map (bgbbLLj a b g d)).sum)
  + pen * (Real.log a + Real.log b + Real.log g + Real.log d)

/-- `BGBBFitter._negative_log_likelihood` (jac=False); guard `npany(params <= 0)`. -/
def bgbbNegLogLik (a b g d : ℝ) (data : List DRow) (pen : ℝ) (N : Option (List ℕ)) : EReal :=
  if a ≤ 0 ∨ b ≤ 0 ∨ g ≤ 0 ∨ d ≤ 0 then ⊤
  else ((bgbbBody a b g d data pen N : ℝ) : EReal)

/-! ## BGBBBGFitter._negative_log_likelihood (lines 938-966) -/

/-- One row of session/conversion data: sessions `x`, recency `tx`, age `T`,
purchases before conversion `xc`. -/
structure CRow where
  x : ℕ
  tx : ℕ
  T : ℕ
  xc : ℕ

/-- Project the session part of a conversion row. -/
def CRow.toDRow (row : CRow) : DRow := ⟨row.x, row.tx, row.T⟩

/-- One row's conversion term `log(B(e + [x ≥ xc], z + xc) / B(e, z))`. -/
def bgbbbgPurchaseLL (e z : ℝ) (row : CRow) : ℝ :=
  Real.log (B (e + (if row.xc ≤ row.x then (1 : ℝ) else 0)) (z + row.xc) / B e z)

/-- The BG/BB/BG objective past the guard: the conversion-term sum plus the
base BG/BB objective on the session columns with the same `penalizer_coef`
(the inner `<= 0` guard of the base likelihood cannot fire, all four
sub-parameters being positive here). -/
def bgbbbgBody (a b g d e z : ℝ) (data : List CRow) (pen : ℝ) (N : Option (List ℕ)) : ℝ :=
  (match N with
    | some w => -((data.zip w).map (fun rn => bgbbbgPurchaseLL e z rn.1 * (rn.2 : ℝ))).sum
    | none => -(data.map (bgbbbgPurchaseLL e z)).sum)
  + bgbbBody a b g d (data.map CRow.toDRow) pen N

/-- `BGBBBGFitter._negative_log_likelihood`; guard `npany(params <= 0)` over
all six parameters. -/
def bgbbbgNegLogLik (a b g d e z : ℝ) (data : List CRow) (pen : ℝ)
    (N : Option (List ℕ)) : EReal :=
  if a ≤ 0 ∨ b ≤ 0 ∨ g ≤ 0 ∨ d ≤ 0 ∨ e ≤ 0 ∨ z ≤ 0 then ⊤
  else ((bgbbbgBody a b g d e z data pen N : ℝ) : EReal)

/-! ## BGBBBGExtFitter._negative_log_likelihood (lines 1070-1102) -/

/-- One row's conversion term of the extended model:
`log(c0·[xc = 0] + (1 - c0)·(B(e + [x ≥ xc], z + xc - 1)/B(e, z))·[xc ≠ 0])`. -/
def bgbbbgextPurchaseLL (e z c0 : ℝ) (row : CRow) : ℝ :=
  Real.log ((if row.xc = 0 then c0 else 0)
    + (1 - c0) * (B (e + (if row.xc ≤ row.x then (1 : ℝ) else 0)) (z + row.xc - 1) / B e z)
      * (if row.xc = 0 then 0 else 1))

/-- The extended BG/BB/BG objective past the guards. -/
def bgbbbgextBody (a b g d e z c0 : ℝ) (data : List CRow) (pen : ℝ)
    (N : Option (List ℕ)) : ℝ :=
  (match N with
    | some w => -((data.zip w).map (fun rn => bgbbbgextPurchaseLL e z c0 rn.1 * (rn.2 : ℝ))).sum
    | none => -(data.map (bgbbbgextPurchaseLL e z c0)).sum)
  + bgbbBody a b g d (data.map CRow.toDRow) pen N

/-- `BGBBBGExtFitter._negative_log_likelihood`; guard `npany(params <= 0)` over
all seven parameters, then `c0 >= 1`. -/
def bgbbbgextNegLogLik (a b g d e z c0 : ℝ) (data : List CRow) (pen : ℝ)
    (N : Option (List ℕ)) : EReal :=
  if a ≤ 0 ∨ b ≤ 0 ∨ g ≤ 0 ∨ d ≤ 0 ∨ e ≤ 0 ∨ z ≤ 0 ∨ c0 ≤ 0 then ⊤
  else if 1 ≤ c0 then ⊤
  else ((bgbbbgextBody a b g d e z c0 data pen N : ℝ) : EReal)

/-! ## BGFitter._negative_log_likelihood (lines 1267-1309, vector path) -/

/-- One row of pure discrete-churn data: frequency `x` and age `T`. -/
structure BRow where
  x : ℕ
  T : ℕ

/-- The per-row numerator `B(a + [x < T], b + x)` of the BG likelihood
(vector path, `dead_ones_to_add = (x < T)`). -/
def bgRowL (a b : ℝ) (row : BRow) : ℝ :=
  B (a + (if row.x < row.T then (1 : ℝ) else 0)) (b + row.x)

/-- The BG objective past the guard: weighted/plain row sum plus
`Ntot · log B(a, b)` plus the penalizer, where `Ntot` is the weight total
(or the row count without weights). -/
def bgBody (a b : ℝ) (data : List BRow) (pen : ℝ) (N : Option (List ℕ)) : ℝ :=
  (match N with
    | some w => -((data.zip w).map (fun rn => Real.log (bgRowL a b rn.1) * (rn.2 : ℝ))).sum
    | none => -(data.map (fun row => Real.log (bgRowL a b row))).sum)
  + (match N with
      | some w => ((w.sum : ℕ) : ℝ)
      | none => (data.length : ℝ)) * Real.log (B a b)
  + pen * (Real.log a + Real.log b)

/-- `BGFitter._negative_log_likelihood`; guard `npany([a, b] <= 0)`. -/
def bgNegLogLik (a b : ℝ) (data : List BRow) (pen : ℝ) (N : Option (List ℕ)) : EReal :=
  if a ≤ 0 ∨ b ≤ 0 then ⊤ else ((bgBody a b data pen N : ℝ) : EReal)

/-! ## Expected-future-events functions (§4.3) -/

/-- `ParetoNBDFitter.static_expected_number_of_purchases_up_to_time` (lines 298-303). -/
def paretoStaticE (r a s b t : ℝ) : ℝ :=
  (r * b / a / (s - 1)) * (1 - (b / (b + t)) ^ (s - 1))

/-- `ParetoNBDFitter.conditional_expected_number_of_purchases_up_to_time`
(lines 261-283), for a single customer history. -/
def paretoCondE (r alpha s beta t x tx T : ℝ) : ℝ :=
  let likelihood := Real.exp (-paretoBody r alpha s beta [⟨x, tx, T⟩] 0)
  let first := (Real.Gamma (r + x) / Real.Gamma r) * (alpha ^ r * beta ^ s)
    / (alpha + T) ^ (r + x) / (beta + T) ^ s
  let second := (r + x) * (beta + T) / (alpha + T) / (s - 1)
  let third := 1 - ((beta + T) / (beta + T + t)) ^ (s - 1)
  first * second * third / likelihood

/-- `BetaGeoFitter.expected_number_of_purchases_up_to_time` (lines 416-428). -/
def betaGeoE (r alpha a b t : ℝ) : ℝ :=
  let hyp := hyp2f1 r b (a + b - 1) (t / (alpha + t))
  (a + b - 1) / (a - 1) * (1 - hyp * (alpha / (alpha + t)) ^ r)

/-- `BetaGeoFitter.conditional_expected_number_of_purchases_up_to_time`
(lines 430-453). -/
def betaGeoCondE (r alpha a b t x tx T : ℝ) : ℝ :=
  let hypTerm := hyp2f1 (r + x) (b + x) (a + b + x - 1) (t / (alpha + T + t))
  let first := (a + b + x - 1) / (a - 1)
  let second := 1 - hypTerm * ((alpha + T) / (alpha + t + T)) ^ (r + x)
  let denominator := 1 + (if 0 < x then (1 : ℝ) else 0) * (a / (b + x - 1))
    * ((alpha + T) / (alpha + tx)) ^ (r + x)
  first * second / denominator

/-- `ModifiedBetaGeoFitter.expected_number_of_purchases_up_to_time` (lines 574-584). -/
def mbgE (r alpha a b t : ℝ) : ℝ :=
  let hyp := hyp2f1 r (b + 1) (a + b) (t / (alpha + t))
  b / (a - 1) * (1 - hyp * (alpha / (alpha + t)) ^ r)

/-- `ModifiedBetaGeoFitter.conditional_expected_number_of_purchases_up_to_time`
(lines 586-608). -/
def mbgCondE (r alpha a b t x tx T : ℝ) : ℝ :=
  let hypTerm := hyp2f1 (r + x) (b + x + 1) (a + b + x) (t / (alpha + T + t))
  let first := (a + b + x) / (a - 1)
  let second := 1 - hypTerm * ((alpha + T) / (alpha + t + T)) ^ (r + x)
  first * second / (1 + (a / (b + x)) * ((alpha + T) / (alpha + tx)) ^ (r + x))

/-- `BGBBFitter.static_expected_number_of_purchases_up_to_time` (lines 840-843).
Also `BGBBBGExtFitter.static_expected_number_of_sessions_up_to_time`, which
delegates to it unchanged. -/
def bgbbStaticE (a b g d t : ℝ) : ℝ :=
  a / (a + b) * d / (g - 1)
    * (1 - (Real.Gamma (g + d) / Real.Gamma (1 + d)) / gamma_ratio (t + d + 1) (g - 1))

/-- `BGFitter.static_expected_number_of_purchases_up_to_time` (lines 1371-1380). -/
def bgStaticE (a b t : ℝ) : ℝ :=
  if t = 0 then 0
  else if t = 1 then B a (b + 1) / B a b
  else (t * B a (b + t) + B (a - 1) (b + 1) - B (a - 1) (b + t) - (t - 1) * B a (b + t))
    / B a b

/-- `BetaGeoFitter.conditional_probability_alive` (lines 455-470). -/
def betaGeoCondAlive (r alpha a b x recency T : ℝ) : ℝ :=
  1 / (1 + (if 0 < x then (1 : ℝ) else 0) * (a / (b + x - 1))
    * ((alpha + T) / (alpha + recency)) ^ (r + x))

/-! ## Delta-method error functions (§4.4) -/

/-- Entry `(i, j)` of a matrix given as a row list (0 outside). -/
def matIdx (C : List (List ℝ)) (i j : ℕ) : ℝ := (C.getD i []).getD j 0

/-- The quadratic form `∇Eᵗ · C · ∇E` of the delta method
(`dE.transpose() * Cov * dE`). -/
def deltaVar (dE : List ℝ) (C : List (List ℝ)) : ℝ :=
  ∑ i ∈ Finset.range dE.length, ∑ j ∈ Finset.range dE.length,
    dE.getD i 0 * matIdx C i j * dE.getD j 0

/-- `ParetoNBDFitter.expected_number_of_purchases_up_to_time_error`
(lines 305-331). The dimension check reads only `len(C)` and `len(C[0])`. -/
def paretoEError (r alpha s beta t : ℝ) (C : List (List ℝ)) : Except PyErr ℝ :=
  if C.length ≠ 4 ∨ C.headI.length ≠ 4 then .error .valueErrorWrongDims
  else
    let E := paretoStaticE r alpha s beta t
    let dEdr := E / r
    let dEdalpha := E * (-1 / alpha)
    let dEds := -E / (s - 1) + (r * beta) / (alpha * (s - 1))
      * (-Real.log (beta / (beta + t)) * (beta / (beta + t)) ^ (s - 1))
    let dEdbeta := E / beta + (r * beta) / (alpha * (s - 1))
      * ((1 - s) * (beta / (beta + t)) ^ (s - 2) * t / (beta + t) ^ 2)
    .ok (Real.sqrt (deltaVar [dEdr, dEdalpha, dEds, dEdbeta] C))

/-- `BGBBFitter.static_expected_number_of_purchases_up_to_time_error`
(lines 865-885). -/
def bgbbStaticEError (a b g d t : ℝ) (C : List (List ℝ)) : Except PyErr ℝ :=
  if C.length ≠ 4 ∨ C.headI.length ≠ 4 then .error .valueErrorWrongDims
  else
    let E := bgbbStaticE a b g d t
    let R := a / (a + b) * d / (g - 1)
      * (-(Real.Gamma (g + d) / Real.Gamma (1 + d)) / gamma_ratio (t + d + 1) (g - 1))
    let dEda := b / (a + b) * E
    let dEdb := -1 / (a + b) * E
    let dEdg := -E / (g - 1) + R * (psi (g + d) - psi (g + d + t))
    let dEdd := E / d + R * (psi (g + d) - psi (g + d + t) - psi (1 + d) + psi (1 + d + t))
    .ok (Real.sqrt (deltaVar [dEda, dEdb, dEdg, dEdd] C))

/-- The helper `dx` of `BGFitter.static_expected_number_of_purchases_up_to_time_error`. -/
def dxB (x y : ℝ) : ℝ := B x y * (psi x - psi (x + y))

/-- The helper `dy` of the same function. -/
def dyB (x y : ℝ) : ℝ := B x y * (psi y - psi (x + y))

/-- `BGFitter.static_expected_number_of_purchases_up_to_time_error`
(lines 1396-1422). Note the `t == 0` early return placed before the
dimension check. -/
def bgStaticEError (a b t : ℝ) (C : List (List ℝ)) : Except PyErr ℝ :=
  if t = 0 then .ok 0
  else if C.length ≠ 2 ∨ C.headI.length ≠ 2 then .error .valueErrorWrongDims
  else
    let Bab := B a b
    let E := bgStaticE a b t * Bab
    let dEda := (t * dxB a (b + t) + dxB (a - 1) (b + 1) - dxB (a - 1) (b + t)
      - (t - 1) * dxB a (b + t)) / Bab - E / Bab ^ 2 * dxB a b
    let dEdb := (t * dyB a (b + t) + dyB (a - 1) (b + 1) - dyB (a - 1) (b + t)
      - (t - 1) * dyB a (b + t)) / Bab - E / Bab ^ 2 * dyB a b
    .ok (Real.sqrt (deltaVar [dEda, dEdb] C))

/-! ## BaseFitter._unload_params (lines 20-37) -/

/-- The parameter-dictionary keys appearing in the source. -/
inductive ParamKey where
  | r | alpha | s | beta | a | b | gamma | delta | epsilon | zeta | c0 | p | q | v
deriving DecidableEq

/-- `hasattr(self, 'params_')`. Always true: `BaseFitter` declares
`params_ = None` as a class attribute (line 22), so the attribute exists on
every instance before `fit` is ever called. -/
def hasattrParams (_params? : Option (List (ParamKey × ℝ))) : Bool := true

/-- `self.params_[x]`: subscripting `None` raises `TypeError`; a missing key
raises `KeyError`. -/
def subscriptParams (params? : Option (List (ParamKey × ℝ))) (k : ParamKey) :
    Except PyErr ℝ :=
  match params? with
  | none => .error .typeErrorNoneNotSubscriptable
  | some m =>
    match m.find? (fun kv => kv.1 == k) with
    | some kv => .ok kv.2
    | none => .error .keyError

/-- The list comprehension `[self.params_[x] for x in args]`. -/
def unloadList (params? : Option (List (ParamKey × ℝ))) :
    List ParamKey → Except PyErr (List ℝ)
  | [] => .ok []
  | k :: ks =>
    match subscriptParams params? k with
    | .error err => .error err
    | .ok val =>
      match unloadList params? ks with
      | .error err => .error err
      | .ok vals => .ok (val :: vals)

/-- `BaseFitter._unload_params` (lines 34-37). -/
def unload_params (params? : Option (List (ParamKey × ℝ))) (args : List ParamKey) :
    Except PyErr (List ℝ) :=
  if hasattrParams params? then unloadList params? args
  else .error .valueErrorNotFit

/-! ## Conversion-probability functions and their error loops -/

/-- The six parameters of `BGBBBGFitter`. -/
structure SixParams where
  alpha : ℝ
  beta : ℝ
  gamma : ℝ
  delta : ℝ
  epsilon : ℝ
  zeta : ℝ

/-- The seven parameters of `BGBBBGExtFitter`. -/
structure SevenParams where
  alpha : ℝ
  beta : ℝ
  gamma : ℝ
  delta : ℝ
  epsilon : ℝ
  zeta : ℝ
  c0 : ℝ

/-- A fitted model (§3 FittedModel): parameters (if fitted), the achieved
negative log-likelihood, and the training-data reference (an opaque token). -/
structure FitModel (P : Type) where
  params? : Option P
  negLogLikVal : ℝ
  dataRef : ℕ

/-- `BGBBBGFitter.expected_probability_of_converting_at_time` (lines 1015-1025),
as a function of the current parameters. -/
def bgbbbgConvAtTime (ps : SixParams) (t : ℕ) : ℝ :=
  if t = 0 then B (ps.epsilon + 1) ps.zeta / B ps.epsilon ps.zeta
  else
    let aliveCoefficient := B ps.gamma (ps.delta + t)
      / (B ps.alpha ps.beta * B ps.gamma ps.delta * B ps.epsilon ps.zeta)
    aliveCoefficient * ∑ k ∈ Finset.range t,
      ncr (t - 1) k * (-1 : ℝ) ^ k * B (ps.alpha + k + 1) ps.beta
        * B (ps.epsilon + k + 1) (ps.zeta + 1)

/-- `BGBBBGFitter.expected_probability_of_converting_within_time` (lines 1039-1040). -/
def bgbbbgConvWithinTime (ps : SixParams) (t : ℕ) : ℝ :=
  ∑ ti ∈ Finset.range (t + 1), bgbbbgConvAtTime ps ti

/-- `BGBBBGExtFitter.static_expected_probability_of_converting_at_time`
(lines 1169-1178). -/
def extStaticConvAtTime (a b g d e z c0 : ℝ) (t : ℕ) : ℝ :=
  if t = 0 then c0
  else
    let aliveCoefficient := B g (d + t) / (B a b * B g d * B e z)
    aliveCoefficient * ((1 - c0) * ∑ k ∈ Finset.range t,
      ncr (t - 1) k * (-1 : ℝ) ^ k * B (a + k + 1) b * B (e + k + 1) z)

/-- `BGBBBGExtFitter.static_regularized_expected_probability_of_converting_at_time`
(lines 1158-1167): for `t > 1`, out-of-range or non-decreasing raw values are
clamped to `0`. -/
def extStaticRegConvAtTime (a b g d e z c0 : ℝ) (t : ℕ) : ℝ :=
  let value := extStaticConvAtTime a b g d e z c0 t
  if 1 < t then
    let prevValue := extStaticConvAtTime a b g d e z c0 (t - 1)
    if value < 0 ∨ prevValue < value ∨ value < 1 / 1000000 ∨ 1 < value then 0 else value
  else value

/-- `BGBBBGExtFitter.expected_probability_of_converting_at_time` as a function
of the current parameters (lines 1150-1152): the regularized static form. -/
def extConvAtTime (ps : SevenParams) (t : ℕ) : ℝ :=
  extStaticRegConvAtTime ps.alpha ps.beta ps.gamma ps.delta ps.epsilon ps.zeta ps.c0 t

/-- `BGBBBGExtFitter.expected_probability_of_converting_within_time`
(lines 1194-1195). -/
def extConvWithinTime (ps : SevenParams) (t : ℕ) : ℝ :=
  ∑ ti ∈ Finset.range (t + 1), extConvAtTime ps ti

/-- `np.std`: population standard deviation. -/
def stdDev (xs : List ℝ) : ℝ :=
  Real.sqrt ((xs.map (fun v => (v - xs.sum / xs.length) ^ 2)).sum / xs.length)

/-- One iteration of the error loops (lines 1030-1034 and alike): assign
`self.params_` from the next tuple, evaluate the conversion probability with
the just-assigned parameters, append the value. -/
def sweepStep {P : Type} (value : P → ℝ) (acc : FitModel P × List ℝ) (ps : P) :
    FitModel P × List ℝ :=
  ({ acc.1 with params? := some ps }, acc.2 ++ [value ps])

/-- The common body of the four `expected_probability_of_converting_*_error`
methods: copy `self.params_`, loop over the parameter list mutating
`self.params_`, take `np.std` of the collected values, restore `self.params_`. -/
def sweepError {P : Type} (value : P → ℝ) (m : FitModel P) (paramsList : List P) :
    ℝ × FitModel P :=
  let initialParams := m.params?
  let final := paramsList.foldl (sweepStep value) (m, [])
  (stdDev final.2, { final.1 with params? := initialParams })

/-- `BGBBBGFitter.expected_probability_of_converting_at_time_error` (lines 1027-1037),
returning the error and the post-call model state. -/
def bgbbbgConvAtTimeError (m : FitModel SixParams) (t : ℕ)
    (paramsList : List SixParams) : ℝ × FitModel SixParams :=
  sweepError (fun ps => bgbbbgConvAtTime ps t) m paramsList

/-- `BGBBBGFitter.expected_probability_of_converting_within_time_error`
(lines 1042-1052). -/
def bgbbbgConvWithinTimeError (m : FitModel SixParams) (t : ℕ)
    (paramsList : List SixParams) : ℝ × FitModel SixParams :=
  sweepError (fun ps => bgbbbgConvWithinTime ps t) m paramsList

/-- `BGBBBGExtFitter.expected_probability_of_converting_at_time_error`
(lines 1180-1192); the final value is clamped to `1` when above `1` (the float
NaN case has no counterpart in `ℝ`). -/
def extConvAtTimeError (m : FitModel SevenParams) (t : ℕ)
    (paramsList : List SevenParams) : ℝ × FitModel SevenParams :=
  let res := sweepError (fun ps => extConvAtTime ps t) m paramsList
  ((if 1 < res.1 then 1 else res.1), res.2)

/-- `BGBBBGExtFitter.expected_probability_of_converting_within_time_error`
(lines 1203-1215). -/
def extConvWithinTimeError (m : FitModel SevenParams) (t : ℕ)
    (paramsList : List SevenParams) : ℝ × FitModel SevenParams :=
  let res := sweepError (fun ps => extConvWithinTime ps t) m paramsList
  ((if 1 < res.1 then 1 else res.1), res.2)

end

/-! ## validation.goodness_of_test (validation.py lines 44-81)

The decision logic given the simulated objectives. The numeric carrier here is
`ℚ`, over which `np.percentile`'s linear interpolation is exact and the
decision is executable. -/

/-- Insertion of a value into a sorted list. -/
def insertSorted (x : ℚ) : List ℚ → List ℚ
  | [] => [x]
  | y :: ys => if x ≤ y then x :: y :: ys else y :: insertSorted x ys

/-- Sorting, as `np.percentile` performs on its input. -/
def sortQ : List ℚ → List ℚ
  | [] => []
  | x :: xs => insertSorted x (sortQ xs)

/-- `np.percentile(xs, q)` with the default linear-interpolation method: the
virtual index is `q/100 · (n-1)`; the result interpolates between the two
neighbouring order statistics. -/
def percentile (xs : List ℚ) (q : ℚ) : ℚ :=
  let s := sortQ xs
  let n := s.length
  let h := q * (n - 1) / 100
  let i := Int.floor h
  let lo := s.getD i.toNat 0
  let hi := s.getD (i.toNat + 1) lo
  lo + (h - i) * (hi - lo)

/-- The accept/reject decision of `goodness_of_test` (lines 72-81): bounds are
the `(1 - confidence_level)·100` and `confidence_level·100` percentiles of the
simulated objectives, and the observed objective must lie strictly between
them. -/
def goodness_of_test_decision (nLLs : List ℚ) (nLL : ℚ) (confidenceLevel : ℚ) : Bool :=
  let lwr := percentile nLLs ((1 - confidenceLevel) * 100)
  let upr := percentile nLLs (confidenceLevel * 100)
  lwr < nLL && nLL < upr

/-- The decision as the spec words it: the empirical percentile interval
`[α/2, 1 - α/2]` with `α = 1 - confidence_level`, acceptance iff strictly
inside. Stated only for comparison against `goodness_of_test_decision`. -/
def goodness_of_test_spec_decision (nLLs : List ℚ) (nLL : ℚ)
    (confidenceLevel : ℚ) : Bool :=
  let alpha := 1 - confidenceLevel
  let lwr := percentile nLLs (alpha / 2 * 100)
  let upr := percentile nLLs ((1 - alpha / 2) * 100)
  lwr < nLL && nLL < upr

/-- Expansion of a weighted dataset: row `j` repeated `N j` times. -/
def expandRows {α : Type} (rows : List α) (N : List ℕ) : List α :=
  ((rows.zip N).map (fun rn => List.replicate rn.2 rn.1)).flatten

/-! ## Helper lemmas -/

/-- The Gauss hypergeometric series at argument `0` sums to `1`. -/
theorem hyp2f1_zero (a b c : ℝ) : hyp2f1 a b c 0 = 1 := by
  have h : ∀ n : ℕ, n ≠ 0 →
      (risingFact a n * risingFact b n / risingFact c n) * (0 : ℝ) ^ n
        / (n.factorial : ℝ) = 0 := by
    intro n hn
    rw [zero_pow hn]
    simp
  unfold hyp2f1
  rw [tsum_eq_single 0 h]
  simp [risingFact]

/-- Summing a function over an expanded dataset equals the weighted sum over
the compressed rows. -/
theorem sum_map_expandRows {α : Type} (f : α → ℝ) :
    ∀ (rows : List α) (N : List ℕ),
      ((expandRows rows N).map f).sum
        = ((rows.zip N).map (fun rn => f rn.1 * (rn.2 : ℝ))).sum := by
  intro rows
  induction rows with
  | nil => intro N; simp [expandRows]
  | cons r rs ih =>
    intro N
    cases N with
    | nil => simp [expandRows]
    | cons n ns =>
      have h := ih ns
      simp only [expandRows] at h ⊢
      simp only [List.zip_cons_cons, List.map_cons, List.flatten_cons, List.map_append,
        List.sum_append, List.map_replicate, List.sum_replicate, List.sum_cons,
        smul_eq_mul, h]
      ring

/-- The length of an expanded dataset is the total weight. -/
theorem length_expandRows {α : Type} :
    ∀ (rows : List α) (N : List ℕ), rows.length = N.length →
      (expandRows rows N).length = N.sum := by
  intro rows
  induction rows with
  | nil =>
    intro N h
    cases N with
    | nil => simp [expandRows]
    | cons n ns => simp at h
  | cons r rs ih =>
    intro N h
    cases N with
    | nil => simp at h
    | cons n ns =>
      have h' : rs.length = ns.length := by simpa using h
      have hrec := ih ns h'
      simp only [expandRows, List.zip_cons_cons, List.map_cons, List.flatten_cons,
        List.length_append, List.length_replicate, List.sum_cons] at hrec ⊢
      omega

/-- The parameter-sweep loop of the conversion-error methods touches only the
`params?` field of the model state. -/
theorem sweepFoldl_frame {P : Type} (value : P → ℝ) :
    ∀ (pl : List P) (m : FitModel P) (vs : List ℝ),
      ((pl.foldl (sweepStep value) (m, vs)).1).negLogLikVal = m.negLogLikVal
      ∧ ((pl.foldl (sweepStep value) (m, vs)).1).dataRef = m.dataRef := by
  intro pl
  induction pl with
  | nil => intro m vs; exact ⟨rfl, rfl⟩
  | cons p ps ih =>
    intro m vs
    simpa [List.foldl_cons, sweepStep] using ih { m with params? := some p } (vs ++ [value p])

/-- A parameter-sweep error computation restores the model state it started
from. -/
theorem sweepError_snd {P : Type} (value : P → ℝ) (m : FitModel P) (pl : List P) :
    (sweepError value m pl).2 = m := by
  obtain ⟨h1, h2⟩ := sweepFoldl_frame value pl m []
  cases m with
  | mk ps nll dref => simp [sweepError, h1, h2]

/-! ## Claim theorems -/

/-- C1 counterexample: `GammaGammaFitter._negative_log_likelihood` does not
return `+infinity` at a non-positive parameter coordinate — its guard is
`any(i < 0)`, so the zero coordinate `p = 0` passes and a finite-typed value
is computed instead of `+infinity`. -/
theorem gammaGamma_zero_param_not_inf :
    gammaGammaNegLogLik 0 1 1 [⟨1, 1⟩] 0 ≠ ⊤ := by
  unfold gammaGammaNegLogLik
  rw [if_neg (by norm_num)]
  exact EReal.coe_ne_top _

/-- C1 (amended): every family's negLogLik returns `+infinity` under its
feasibility guard — any non-positive coordinate for Pareto/NBD, BG/NBD,
MBG/NBD, BG/BB, BG/BB/BG, the extended conversion model (also a mixture
weight `c0 ≥ 1`) and BG, but only a strictly negative coordinate for
GammaGamma — and, being total, raises no exception. -/
theorem negLogLik_infeasibility_guards :
    (∀ p q v data pen, (p < 0 ∨ q < 0 ∨ v < 0) →
      gammaGammaNegLogLik p q v data pen = ⊤)
    ∧ (∀ r alpha s beta data pen, (r ≤ 0 ∨ alpha ≤ 0 ∨ s ≤ 0 ∨ beta ≤ 0) →
      paretoNegLogLik r alpha s beta data pen = ⊤)
    ∧ (∀ r alpha a b data pen, (r ≤ 0 ∨ alpha ≤ 0 ∨ a ≤ 0 ∨ b ≤ 0) →
      betaGeoNegLogLik r alpha a b data pen = ⊤)
    ∧ (∀ r alpha a b data pen, (r ≤ 0 ∨ alpha ≤ 0 ∨ a ≤ 0 ∨ b ≤ 0) →
      mbgNegLogLik r alpha a b data pen = ⊤)
    ∧ (∀ a b g d data pen N, (a ≤ 0 ∨ b ≤ 0 ∨ g ≤ 0 ∨ d ≤ 0) →
      bgbbNegLogLik a b g d data pen N = ⊤)
    ∧ (∀ a b g d e z data pen N, (a ≤ 0 ∨ b ≤ 0 ∨ g ≤ 0 ∨ d ≤ 0 ∨ e ≤ 0 ∨ z ≤ 0) →
      bgbbbgNegLogLik a b g d e z data pen N = ⊤)
    ∧ (∀ a b g d e z c0 data pen N,
      ((a ≤ 0 ∨ b ≤ 0 ∨ g ≤ 0 ∨ d ≤ 0 ∨ e ≤ 0 ∨ z ≤ 0 ∨ c0 ≤ 0) ∨ 1 ≤ c0) →
      bgbbbgextNegLogLik a b g d e z c0 data pen N = ⊤)
    ∧ (∀ a b data pen N, (a ≤ 0 ∨ b ≤ 0) →
      bgNegLogLik a b data pen N = ⊤) := by
  refine ⟨?_, ?_, ?_, ?_, ?_, ?_, ?_, ?_⟩
  · intro p q v data pen h
    unfold gammaGammaNegLogLik
    exact if_pos h
  · intro r alpha s beta data pen h
    unfold paretoNegLogLik
    exact if_pos h
  · intro r alpha a b data pen h
    unfold betaGeoNegLogLik
    exact if_pos h
  · intro r alpha a b data pen h
    unfold mbgNegLogLik
    exact if_pos h
  · intro a b g d data pen N h
    unfold bgbbNegLogLik
    exact if_pos h
  · intro a b g d e z data pen N h
    unfold bgbbbgNegLogLik
    exact if_pos h
  · intro a b g d e z c0 data pen N h
    unfold bgbbbgextNegLogLik
    rcases h with h | h
    · exact if_pos h
    · by_cases h1 : a ≤ 0 ∨ b ≤ 0 ∨ g ≤ 0 ∨ d ≤ 0 ∨ e ≤ 0 ∨ z ≤ 0 ∨ c0 ≤ 0
      · exact if_pos h1
      · rw [if_neg h1, if_pos h]
  · intro a b data pen N h
    unfold bgNegLogLik
    exact if_pos h

/-- C1 witness: the amended guards at concrete infeasible parameters. -/
theorem negLogLik_infeasibility_guards_witness :
    gammaGammaNegLogLik (-1) 1 1 [⟨1, 1⟩] 0 = ⊤
    ∧ paretoNegLogLik 0 1 1 1 [⟨1, 1, 2⟩] 0 = ⊤
    ∧ betaGeoNegLogLik 0 1 1 1 [⟨1, 1, 2⟩] 0 = ⊤
    ∧ mbgNegLogLik 0 1 1 1 [⟨1, 1, 2⟩] 0 = ⊤
    ∧ bgbbNegLogLik 0 1 1 1 [⟨1, 1, 2⟩] 0 none = ⊤
    ∧ bgbbbgNegLogLik 1 1 1 1 0 1 [⟨1, 1, 2, 1⟩] 0 none = ⊤
    ∧ bgbbbgextNegLogLik 1 1 1 1 1 1 2 [⟨1, 1, 2, 1⟩] 0 none = ⊤
    ∧ bgNegLogLik 0 1 [⟨1, 2⟩] 0 none = ⊤ :=
  ⟨negLogLik_infeasibility_guards.1 (-1) 1 1 _ 0 (by norm_num),
   negLogLik_infeasibility_guards.2.1 0 1 1 1 _ 0 (by norm_num),
   negLogLik_infeasibility_guards.2.2.1 0 1 1 1 _ 0 (by norm_num),
   negLogLik_infeasibility_guards.2.2.2.1 0 1 1 1 _ 0 (by norm_num),
   negLogLik_infeasibility_guards.2.2.2.2.1 0 1 1 1 _ 0 none (by norm_num),
   negLogLik_infeasibility_guards.2.2.2.2.2.1 1 1 1 1 0 1 _ 0 none (by norm_num),
   negLogLik_infeasibility_guards.2.2.2.2.2.2.1 1 1 1 1 1 1 2 _ 0 none
     (Or.inr (by norm_num)),
   negLogLik_infeasibility_guards.2.2.2.2.2.2.2 0 1 _ 0 none (by norm_num)⟩

/-- C2 counterexample: the validator compares against the
`[(1-c)·100, c·100]` percentiles, not the `[α/2, 1-α/2]` interval the spec
describes. At confidence `0.99` with simulated objectives `[0, 1, 2, 3]` and
observed objective `1/50`, the code rejects while the spec interval accepts. -/
theorem goodness_of_test_interval_counterexample :
    goodness_of_test_decision [0, 1, 2, 3] (1/50) (99/100) = false
    ∧ goodness_of_test_spec_decision [0, 1, 2, 3] (1/50) (99/100) = true := by
  constructor <;>
    norm_num [goodness_of_test_decision, goodness_of_test_spec_decision,
      percentile, sortQ, insertSorted, List.getD,
      show (([0, 1, 2, 3] : List ℚ)[(2 : ℤ).toNat] = 2) from rfl,
      show (([1, 2, 3] : List ℚ)[(2 : ℤ).toNat] = 3) from rfl]

/-- C2 (amended): `goodness_of_test` accepts iff the observed objective lies
strictly between the `(1 - confidence_level)·100`-th and the
`confidence_level·100`-th empirical percentiles of the simulated objectives. -/
theorem goodness_of_test_decision_iff (nLLs : List ℚ) (nLL conf : ℚ) :
    goodness_of_test_decision nLLs nLL conf = true
      ↔ (percentile nLLs ((1 - conf) * 100) < nLL
         ∧ nLL < percentile nLLs (conf * 100)) := by
  simp [goodness_of_test_decision]

/-- C3 counterexample: the BG/BB/BG objective does not carry the penalizer
over all six parameters. At `alpha = beta = gamma = delta = 1` and
`epsilon = zeta = e`, a six-parameter penalizer would add `2` when going from
`penalizer_coef = 0` to `1`, but the objective is unchanged: the penalizer
covers only the four session parameters. -/
theorem conversion_penalizer_counterexample :
    bgbbbgBody 1 1 1 1 (Real.exp 1) (Real.exp 1) [⟨1, 1, 1, 1⟩] 1 none
      ≠ bgbbbgBody 1 1 1 1 (Real.exp 1) (Real.exp 1) [⟨1, 1, 1, 1⟩] 0 none
        + 1 * (Real.log 1 + Real.log 1 + Real.log 1 + Real.log 1
          + Real.log (Real.exp 1) + Real.log (Real.exp 1)) := by
  simp [bgbbbgBody, bgbbBody, Real.log_exp]

/-- C3 (amended): every family's objective carries the additive term
`penalizer_coef · Σ log(param)` — over all of the model's parameters for
GammaGamma, Pareto/NBD, BG/NBD, MBG/NBD, BG/BB and BG, but only over the four
session parameters `alpha, beta, gamma, delta` for BG/BB/BG and the extended
conversion model (`epsilon`, `zeta`, `c0` are not penalized). -/
theorem penalizer_term_structure :
    (∀ p q v data pen, gammaGammaBody p q v data pen
      = gammaGammaBody p q v data 0 + pen * (Real.log p + Real.log q + Real.log v))
    ∧ (∀ r alpha s beta data pen, paretoBody r alpha s beta data pen
      = paretoBody r alpha s beta data 0
        + pen * (Real.log r + Real.log alpha + Real.log s + Real.log beta))
    ∧ (∀ r alpha a b data pen, betaGeoBody r alpha a b data pen
      = betaGeoBody r alpha a b data 0
        + pen * (Real.log r + Real.log alpha + Real.log a + Real.log b))
    ∧ (∀ r alpha a b data pen, mbgBody r alpha a b data pen
      = mbgBody r alpha a b data 0
        + pen * (Real.log r + Real.log alpha + Real.log a + Real.log b))
    ∧ (∀ a b g d data pen N, bgbbBody a b g d data pen N
      = bgbbBody a b g d data 0 N
        + pen * (Real.log a + Real.log b + Real.log g + Real.log d))
    ∧ (∀ a b g d e z data pen N, bgbbbgBody a b g d e z data pen N
      = bgbbbgBody a b g d e z data 0 N
        + pen * (Real.log a + Real.log b + Real.log g + Real.log d))
    ∧ (∀ a b g d e z c0 data pen N, bgbbbgextBody a b g d e z c0 data pen N
      = bgbbbgextBody a b g d e z c0 data 0 N
        + pen * (Real.log a + Real.log b + Real.log g + Real.log d))
    ∧ (∀ a b data pen N, bgBody a b data pen N
      = bgBody a b data 0 N + pen * (Real.log a + Real.log b)) := by
  refine ⟨?_, ?_, ?_, ?_, ?_, ?_, ?_, ?_⟩
  · intro p q v data pen
    unfold gammaGammaBody
    ring
  · intro r alpha s beta data pen
    unfold paretoBody
    ring
  · intro r alpha a b data pen
    unfold betaGeoBody
    ring
  · intro r alpha a b data pen
    unfold mbgBody
    ring
  · intro a b g d data pen N
    cases N <;> simp only [bgbbBody] <;> ring
  · intro a b g d e z data pen N
    cases N <;> simp only [bgbbbgBody, bgbbBody] <;> ring
  · intro a b g d e z c0 data pen N
    cases N <;> simp only [bgbbbgextBody, bgbbBody] <;> ring
  · intro a b data pen N
    cases N <;> simp only [bgBody] <;> ring

/-- C4: every expected-future-events function is exactly `0` at horizon
`t = 0`, in population and individual-conditional form, for positive (fitted)
parameters and any customer history. -/
theorem expected_events_zero_horizon :
    (∀ r a s b : ℝ, 0 < b → paretoStaticE r a s b 0 = 0)
    ∧ (∀ r alpha s beta x tx T : ℝ, 0 < beta → 0 ≤ T →
        paretoCondE r alpha s beta 0 x tx T = 0)
    ∧ (∀ r alpha a b : ℝ, 0 < alpha → betaGeoE r alpha a b 0 = 0)
    ∧ (∀ r alpha a b x tx T : ℝ, 0 < alpha → 0 ≤ T →
        betaGeoCondE r alpha a b 0 x tx T = 0)
    ∧ (∀ r alpha a b : ℝ, 0 < alpha → mbgE r alpha a b 0 = 0)
    ∧ (∀ r alpha a b x tx T : ℝ, 0 < alpha → 0 ≤ T →
        mbgCondE r alpha a b 0 x tx T = 0)
    ∧ (∀ a b g d : ℝ, 0 < g → 0 < d → bgbbStaticE a b g d 0 = 0)
    ∧ (∀ a b : ℝ, bgStaticE a b 0 = 0) := by
  refine ⟨?_, ?_, ?_, ?_, ?_, ?_, ?_, ?_⟩
  · intro r a s b hb
    unfold paretoStaticE
    rw [add_zero, div_self hb.ne', Real.one_rpow]
    ring
  · intro r alpha s beta x tx T hbeta hT
    have hbT : beta + T ≠ 0 := ne_of_gt (by linarith)
    simp only [paretoCondE, add_zero]
    rw [div_self hbT, Real.one_rpow]
    ring
  · intro r alpha a b halpha
    simp only [betaGeoE, add_zero, zero_div, hyp2f1_zero]
    rw [div_self halpha.ne', Real.one_rpow]
    ring
  · intro r alpha a b x tx T halpha hT
    have haT : alpha + T ≠ 0 := ne_of_gt (by linarith)
    simp only [betaGeoCondE, add_zero, zero_div, hyp2f1_zero]
    rw [div_self haT, Real.one_rpow]
    ring
  · intro r alpha a b halpha
    simp only [mbgE, add_zero, zero_div, hyp2f1_zero]
    rw [div_self halpha.ne', Real.one_rpow]
    ring
  · intro r alpha a b x tx T halpha hT
    have haT : alpha + T ≠ 0 := ne_of_gt (by linarith)
    simp only [mbgCondE, add_zero, zero_div, hyp2f1_zero]
    rw [div_self haT, Real.one_rpow]
    ring
  · intro a b g d hg hd
    have hratio : Real.Gamma (g + d) / Real.Gamma (1 + d) ≠ 0 := by
      have hgd : 0 < Real.Gamma (g + d) := Real.Gamma_pos_of_pos (by linarith)
      have h1d : 0 < Real.Gamma (1 + d) := Real.Gamma_pos_of_pos (by linarith)
      positivity
    simp only [bgbbStaticE, gamma_ratio]
    have e1 : (0 : ℝ) + d + 1 + (g - 1) = g + d := by ring
    have e2 : (0 : ℝ) + d + 1 = 1 + d := by ring
    rw [e1, e2, div_self hratio]
    ring
  · intro a b
    unfold bgStaticE
    rw [if_pos rfl]

/-- C4 witness: the zero-horizon identities at concrete positive parameters. -/
theorem expected_events_zero_horizon_witness :
    paretoStaticE 1 1 2 1 0 = 0
    ∧ paretoCondE 1 1 2 1 0 1 1 2 = 0
    ∧ betaGeoE 1 1 1 1 0 = 0
    ∧ betaGeoCondE 1 1 1 1 0 1 1 2 = 0
    ∧ mbgE 1 1 1 1 0 = 0
    ∧ mbgCondE 1 1 1 1 0 1 1 2 = 0
    ∧ bgbbStaticE 1 1 2 1 0 = 0
    ∧ bgStaticE 1 1 0 = 0 :=
  ⟨expected_events_zero_horizon.1 1 1 2 1 (by norm_num),
   expected_events_zero_horizon.2.1 1 1 2 1 1 1 2 (by norm_num) (by norm_num),
   expected_events_zero_horizon.2.2.1 1 1 1 1 (by norm_num),
   expected_events_zero_horizon.2.2.2.1 1 1 1 1 1 1 2 (by norm_num) (by norm_num),
   expected_events_zero_horizon.2.2.2.2.1 1 1 1 1 (by norm_num),
   expected_events_zero_horizon.2.2.2.2.2.1 1 1 1 1 1 1 2 (by norm_num) (by norm_num),
   expected_events_zero_horizon.2.2.2.2.2.2.1 1 1 2 1 (by norm_num) (by norm_num),
   expected_events_zero_horizon.2.2.2.2.2.2.2 1 1⟩

/-- C5 counterexample: `BGFitter.static_expected_number_of_purchases_up_to_time_error`
returns the numeric result `0` at horizon `t = 0` even for a 3×3 covariance
matrix — the `t == 0` early return precedes the dimension check, so no
dimension-mismatch error is raised. -/
theorem bg_error_zero_horizon_no_dim_error :
    bgStaticEError 1 1 0 [[1, 0, 0], [0, 1, 0], [0, 0, 1]] = .ok 0 := by
  unfold bgStaticEError
  rw [if_pos rfl]

/-- C5 (amended): the delta-method error functions raise the
dimension-mismatch error iff the row count of `C` or the length of its first
row differs from the parameter count `p` (rows past the first are not
inspected) — except `BGFitter` at `t = 0`, which returns `0` before any
dimension check. -/
theorem covariance_dimension_guard :
    (∀ r alpha s beta t C, (∃ e, paretoEError r alpha s beta t C = .error e)
        ↔ (C.length ≠ 4 ∨ C.headI.length ≠ 4))
    ∧ (∀ a b g d t C, (∃ e, bgbbStaticEError a b g d t C = .error e)
        ↔ (C.length ≠ 4 ∨ C.headI.length ≠ 4))
    ∧ (∀ a b t C, (∃ e, bgStaticEError a b t C = .error e)
        ↔ (t ≠ 0 ∧ (C.length ≠ 2 ∨ C.headI.length ≠ 2))) := by
  refine ⟨?_, ?_, ?_⟩
  · intro r alpha s beta t C
    unfold paretoEError
    split_ifs with h
    · simp [h]
    · simp [h]
  · intro a b g d t C
    unfold bgbbStaticEError
    split_ifs with h
    · simp [h]
    · simp [h]
  · intro a b t C
    unfold bgStaticEError
    split_ifs with h1 h2
    · simp [h1]
    · simp [h1, h2]
    · simp [h1, h2]

/-- C6: on an unfitted model (`params_ = None`), `_unload_params` does not
raise the explicit "Model has not been fit yet" `ValueError` — the
`hasattr(self, 'params_')` test always passes because `BaseFitter` declares
`params_ = None` as a class attribute, so the call fails instead with a
`TypeError` from subscripting `None`. -/
theorem unfitted_unload_params_raises_type_error (k : ParamKey) (ks : List ParamKey) :
    unload_params none (k :: ks) = .error .typeErrorNoneNotSubscriptable
    ∧ PyErr.typeErrorNoneNotSubscriptable ≠ PyErr.valueErrorNotFit := by
  constructor
  · simp [unload_params, hasattrParams, unloadList, subscriptParams]
  · simp

/-- C7: for the discrete-time likelihoods, evaluating with weights `N` equals
evaluating without weights on the dataset in which row `j` is repeated `N j`
times. -/
theorem weighted_negLogLik_eq_expanded :
    (∀ a b g d pen (rows : List DRow) (N : List ℕ), rows.length = N.length →
      bgbbNegLogLik a b g d rows pen (some N)
        = bgbbNegLogLik a b g d (expandRows rows N) pen none)
    ∧ (∀ a b pen (rows : List BRow) (N : List ℕ), rows.length = N.length →
      bgNegLogLik a b rows pen (some N)
        = bgNegLogLik a b (expandRows rows N) pen none) := by
  constructor
  · intro a b g d pen rows N hlen
    have hbody : bgbbBody a b g d rows pen (some N)
        = bgbbBody a b g d (expandRows rows N) pen none := by
      simp only [bgbbBody]
      rw [sum_map_expandRows]
    unfold bgbbNegLogLik
    rw [hbody]
  · intro a b pen rows N hlen
    have hbody : bgBody a b rows pen (some N)
        = bgBody a b (expandRows rows N) pen none := by
      simp only [bgBody]
      rw [sum_map_expandRows, length_expandRows rows N hlen]
    unfold bgNegLogLik
    rw [hbody]

/-- C7 witness: weighted and expanded evaluation agree on a concrete
two-row dataset with weights `[2, 3]`. -/
theorem weighted_negLogLik_eq_expanded_witness :
    bgbbNegLogLik 1 1 1 1 [⟨1, 1, 2⟩, ⟨0, 0, 1⟩] 0 (some [2, 3])
      = bgbbNegLogLik 1 1 1 1 (expandRows [⟨1, 1, 2⟩, ⟨0, 0, 1⟩] [2, 3]) 0 none
    ∧ bgNegLogLik 1 1 [⟨1, 2⟩, ⟨2, 2⟩] 0 (some [2, 3])
      = bgNegLogLik 1 1 (expandRows [⟨1, 2⟩, ⟨2, 2⟩] [2, 3]) 0 none :=
  ⟨weighted_negLogLik_eq_expanded.1 1 1 1 1 0 _ _ rfl,
   weighted_negLogLik_eq_expanded.2 1 1 0 _ _ rfl⟩

/-- C8: the conversion-probability error functions, which temporarily
reassign `self.params_` while sweeping the supplied parameter list, restore
the fitted model exactly: parameters, achieved negative log-likelihood and
training-data reference are unchanged after the call. -/
theorem conversion_error_functions_preserve_model :
    (∀ (m : FitModel SixParams) t pl, (bgbbbgConvAtTimeError m t pl).2 = m)
    ∧ (∀ (m : FitModel SixParams) t pl, (bgbbbgConvWithinTimeError m t pl).2 = m)
    ∧ (∀ (m : FitModel SevenParams) t pl, (extConvAtTimeError m t pl).2 = m)
    ∧ (∀ (m : FitModel SevenParams) t pl, (extConvWithinTimeError m t pl).2 = m) := by
  refine ⟨?_, ?_, ?_, ?_⟩ <;> intro m t pl <;>
    simp [bgbbbgConvAtTimeError, bgbbbgConvWithinTimeError, extConvAtTimeError,
      extConvWithinTimeError, sweepError_snd]

/-- C9: in the BG/NBD model, a customer with zero repeat purchases is
predicted alive with probability exactly `1`, whatever the recency, the age
and the (fitted) parameters: the `(frequency > 0)` indicator zeroes the
correction term. -/
theorem betaGeo_cond_alive_zero_frequency (r alpha a b recency T : ℝ) :
    betaGeoCondAlive r alpha a b 0 recency T = 1 := by
  unfold betaGeoCondAlive
  rw [if_neg (lt_irrefl 0)]
  simp

/-- C10: for `t > 1` the regularized conversion probability of the extended
model is either exactly `0`, or a value in `[10⁻⁶, 1]` not exceeding the
unregularized conversion probability at `t - 1`. -/
theorem regularized_conversion_range (a b g d e z c0 : ℝ) (t : ℕ) (ht : 1 < t) :
    extStaticRegConvAtTime a b g d e z c0 t = 0
    ∨ (1 / 1000000 ≤ extStaticRegConvAtTime a b g d e z c0 t
       ∧ extStaticRegConvAtTime a b g d e z c0 t ≤ 1
       ∧ extStaticRegConvAtTime a b g d e z c0 t
         ≤ extStaticConvAtTime a b g d e z c0 (t - 1)) := by
  simp only [extStaticRegConvAtTime]
  rw [if_pos ht]
  split_ifs with h
  · exact Or.inl rfl
  · push_neg at h
    exact Or.inr ⟨h.2.2.1, h.2.2.2, h.2.1⟩

/-- C10 witness: the range property at concrete parameters and `t = 2`. -/
theorem regularized_conversion_range_witness :
    extStaticRegConvAtTime 1 1 1 1 1 1 (1/2) 2 = 0
    ∨ (1 / 1000000 ≤ extStaticRegConvAtTime 1 1 1 1 1 1 (1/2) 2
       ∧ extStaticRegConvAtTime 1 1 1 1 1 1 (1/2) 2 ≤ 1
       ∧ extStaticRegConvAtTime 1 1 1 1 1 1 (1/2) 2
         ≤ extStaticConvAtTime 1 1 1 1 1 1 (1/2) (2 - 1)) :=
  regularized_conversion_range 1 1 1 1 1 1 (1/2) 2 (by norm_num)
